import Mathlib

/-
Verification of the mat73 decoding layer (src/lib.rs): a reader of Matlab 7.3
mat files, which are HDF5 containers.  The HDF5 library and the nalgebra matrix
type are external collaborators; they are modelled here by the capability set
the spec requires of them (name-addressed lookup, attribute reads, raw element
reads), with every fallible call returning `Except` and every panic of the
Rust code modelled as `none`.
-/

namespace Mat73

/-- Modelled from the spec: an error value of the underlying HDF5 backing-store
library.  `msg` is the message the error displays; `srcMsg` is the displayed
message of its own source cause, when it has one (`none` when `source()` of the
store error yields nothing). -/
structure HdfError where
  msg : String
  srcMsg : Option String
deriving DecidableEq, Repr

/-- Modelled from the spec: the HDF5 library converts a plain message string
into an internal store error; such an internal error carries no further source
cause. -/
def HdfError.fromStr (s : String) : HdfError :=
  ⟨s, none⟩

/-- The error taxonomy of the library (src/lib.rs, `enum Error`, lines 19-24). -/
inductive Error where
  | HDF5 : HdfError → Error
  | Dataset : String → Error
  | Group : String → Error
  | Struct : Error
deriving DecidableEq, Repr

deriving instance DecidableEq for Except

/-- `Error::source` (src/lib.rs lines 45-52): only the `HDF5` variant chains a
cause, namely the wrapped store error's own source. -/
def Error.source : Error → Option String
  | .HDF5 e => e.srcMsg
  | _ => none

/-- `Display for Error` (src/lib.rs lines 25-39).  The `HDF5` arm interpolates
`source(self).unwrap()`; when the source is absent the `unwrap` panics, which is
modelled as `none`.  The remaining arms always render. -/
def Error.display : Error → Option String
  | .HDF5 e =>
    match (Error.HDF5 e).source with
    | some s =>
      some ("Importing Matlab variables failed (" ++ e.msg ++ "), caused by " ++ s)
    | none => none
  | .Dataset name => some ("Loading " ++ name ++ " dataset failed")
  | .Group name => some ("Loading " ++ name ++ " group failed")
  | .Struct => some "Matlab class is not a struct"

/-- `Debug for Error` (src/lib.rs lines 40-44) delegates to `Display`. -/
def Error.debug (e : Error) : Option String :=
  e.display

/-- `MatVar<T>` (src/lib.rs lines 61-66): one Matlab numeric array, a name, a
declared shape and a flat data buffer. -/
structure MatVar (T : Type) where
  name : String
  shape : List Nat
  data : List T
deriving DecidableEq, Repr

variable {T : Type}

/-- `MatVar::raw` (src/lib.rs lines 68-70). -/
def MatVar.raw (v : MatVar T) : List T :=
  v.data

/-- `MatVar::n_row` (src/lib.rs lines 77-79): `self.shape[1]`; the index panics
when the shape has fewer than two entries, modelled as `none`. -/
def MatVar.n_row (v : MatVar T) : Option Nat :=
  v.shape.get? 1

/-- `MatVar::n_column` (src/lib.rs lines 80-82): `self.shape[0]`, same panic
model. -/
def MatVar.n_column (v : MatVar T) : Option Nat :=
  v.shape.get? 0

/-- `MatStruct` (src/lib.rs lines 85-88): the field-name metadata of a Matlab
struct. -/
structure MatStruct where
  field_names : List String
deriving DecidableEq, Repr

/-- Modelled from the spec: one dataset object of the backing store, carrying
its canonical object name (`dataset.name()`), its declared dimension sizes
(`dataset.shape()`), and the outcome of reading its raw elements as type `T`
(`dataset.read_raw::<T>()`). -/
structure H5Dataset (T : Type) where
  name : String
  shape : List Nat
  read_raw : Except HdfError (List T)

/-- Modelled from the spec: one group object of the backing store.
`matlab_class` is the outcome of reading the `MATLAB_class` attribute as a
fixed-length ASCII scalar; `matlab_fields` is the outcome of reading the
`MATLAB_fields` attribute as an ordered sequence of variable-length arrays of
single-character ASCII items, each item given by its `as_str` rendering. -/
structure H5Group where
  matlab_class : Except HdfError String
  matlab_fields : Except HdfError (List (List String))

/-- Modelled from the spec: the backing store's name-addressed lookup
capability over one open HDF5 file, specialised to element type `T` for
dataset reads. -/
structure H5File (T : Type) where
  dataset : String → Except HdfError (H5Dataset T)
  group : String → Except HdfError H5Group

/-- `File` (src/lib.rs lines 91-93): owns one open backing store. -/
structure File (T : Type) where
  h5 : H5File T

/-- `File::array` (src/lib.rs lines 102-112): any lookup failure collapses into
`Error::Dataset(name)`; a raw-read failure is converted by `?` through
`From<hdf5::Error>` into `Error::HDF5`; on success the `MatVar` copies the
dataset's canonical name, shape and raw data. -/
def File.array (f : File T) (name : String) : Except Error (MatVar T) :=
  match f.h5.dataset name with
  | .error _ => .error (.Dataset name)
  | .ok d =>
    match d.read_raw with
    | .error e => .error (.HDF5 e)
    | .ok data => .ok ⟨d.name, d.shape, data⟩

/-- `File::structure` (src/lib.rs lines 113-136).  A group-lookup failure
collapses into `Error::Group(name)`.  An attribute-read failure is converted by
`?` into `Error::HDF5`.  A class value other than `"struct"` produces
`Err("Matlab class is not a struct".into())` inside the hdf5 result, which `?`
also converts into `Error::HDF5` wrapping an internal store error — the
`Error::Struct` variant is never constructed.  On success each `MATLAB_fields`
element's character items are concatenated into one field name, in attribute
order. -/
def File.structure' (f : File T) (name : String) : Except Error MatStruct :=
  match f.h5.group name with
  | .error _ => .error (.Group name)
  | .ok g =>
    match g.matlab_class with
    | .error e => .error (.HDF5 e)
    | .ok matlab_type =>
      if matlab_type = "struct" then
        match g.matlab_fields with
        | .error e => .error (.HDF5 e)
        | .ok data => .ok ⟨data.map String.join⟩
      else
        .error (.HDF5 (HdfError.fromStr "Matlab class is not a struct"))

/-- Modelled from the spec: a dynamically sized dense matrix with column-major
backing storage, the external nalgebra consumer of a decoded array. -/
structure DMatrix (T : Type) where
  nrows : Nat
  ncols : Nat
  entries : List T
deriving DecidableEq, Repr

/-- Element at row `i`, column `j` of a column-major matrix: entry
`j * nrows + i` of the backing storage. -/
def DMatrix.get (m : DMatrix T) (i j : Nat) : Option T :=
  m.entries.get? (j * m.nrows + i)

/-- Modelled from the spec: nalgebra's `DMatrix::from_column_slice`, which
fills an `nrows × ncols` matrix column by column from the slice and panics
(`none`) when the slice does not hold exactly `nrows * ncols` elements. -/
def fromColumnSlice (nrows ncols : Nat) (s : List T) : Option (DMatrix T) :=
  if s.length = nrows * ncols then some ⟨nrows, ncols, s⟩ else none

/-- `From<MatVar<T>> for nalgebra::Matrix` (src/lib.rs lines 145-163): panics
via `unimplemented!` when the shape has more than two entries, otherwise
indexes `shape[1]` and `shape[0]` (a panic when either is absent) and reshapes
the flat buffer column-wise.  Every panic is modelled as `none`. -/
def matVarToMatrix (var : MatVar T) : Option (DMatrix T) :=
  if var.shape.length > 2 then none
  else
    match var.shape.get? 1, var.shape.get? 0 with
    | some r, some c => fromColumnSlice r c var.raw
    | _, _ => none

/-- Modelled from the spec: the backing store's read contract — a successful
raw read of a dataset delivers exactly `product(shape)` elements. -/
def H5Dataset.readContract (d : H5Dataset T) : Prop :=
  ∀ data, d.read_raw = .ok data → data.length = d.shape.prod

/-! ### Example stores used to instantiate the theorems on concrete inputs -/

/-- A generic lookup failure of the backing store. -/
def absentErr : HdfError :=
  HdfError.fromStr "object not found"

/-- A group whose `MATLAB_class` reads as `"double"`. -/
def exGroupDouble : H5Group :=
  ⟨.ok "double", .ok [["a"]]⟩

/-- A store holding one group `"s"` of Matlab class `"double"`. -/
def exFileDouble : File Nat :=
  ⟨⟨fun _ => .error absentErr,
    fun n => if n = "s" then .ok exGroupDouble else .error absentErr⟩⟩

/-- A store in which every lookup fails. -/
def exFileEmpty : File Nat :=
  ⟨⟨fun _ => .error absentErr, fun _ => .error absentErr⟩⟩

/-- The decoded 2-D fixture variable `w`, stored shape `[2, 3]`, column-major
data. -/
def wVar : MatVar Int :=
  ⟨"/w", [2, 3], [0, -6, -2, 1, 56, 1]⟩

/-- The decoded 1-D fixture variable `q`, stored shape `[6]`. -/
def qVar : MatVar Int :=
  ⟨"/q", [6], [1, 4, 2, 5, 3, 6]⟩

/-- A group whose `MATLAB_class` attribute read fails. -/
def exGroupClassErr : H5Group :=
  ⟨.error ⟨"attr missing", none⟩, .ok []⟩

/-- A struct group whose `MATLAB_fields` attribute read fails. -/
def exGroupFieldsErr : H5Group :=
  ⟨.ok "struct", .error ⟨"fields unreadable", some "detail"⟩⟩

/-- A store holding the two attribute-failure groups under `"a"` and `"b"`. -/
def exFileAttrErr : File Nat :=
  ⟨⟨fun _ => .error absentErr,
    fun n =>
      if n = "a" then .ok exGroupClassErr
      else if n = "b" then .ok exGroupFieldsErr
      else .error absentErr⟩⟩

/-- A well-formed struct group with fields `a` and `bc`. -/
def exGroupStruct : H5Group :=
  ⟨.ok "struct", .ok [["a"], ["b", "c"]]⟩

/-- A store holding the well-formed struct group under `"s"`. -/
def exFileStruct : File Nat :=
  ⟨⟨fun _ => .error absentErr,
    fun n => if n = "s" then .ok exGroupStruct else .error absentErr⟩⟩

/-- A struct group one of whose `MATLAB_fields` elements is empty. -/
def exGroupEmptyField : H5Group :=
  ⟨.ok "struct", .ok [[]]⟩

/-- A store holding the empty-field struct group under `"s"`. -/
def exFileEmptyField : File Nat :=
  ⟨⟨fun _ => .error absentErr,
    fun n => if n = "s" then .ok exGroupEmptyField else .error absentErr⟩⟩

/-- The fixture dataset `q`: canonical name `/q`, shape `[6]`, six elements. -/
def exDatasetQ : H5Dataset Nat :=
  ⟨"/q", [6], .ok [1, 4, 2, 5, 3, 6]⟩

/-- A store holding the fixture dataset under the lookup name `"q"`. -/
def exFileQ : File Nat :=
  ⟨⟨fun n => if n = "q" then .ok exDatasetQ else .error absentErr,
    fun _ => .error absentErr⟩⟩

/-! ### Shared helper lemmas -/

/-- Success of `File::structure` forces the decoded field names to be the
concatenations of the `MATLAB_fields` elements, in attribute order. -/
theorem structure_ok_fields (f : File T) (name : String) (g : H5Group)
    (fields : List (List String)) (s : MatStruct)
    (hg : f.h5.group name = .ok g) (hf : g.matlab_fields = .ok fields)
    (h : f.structure' name = .ok s) :
    s.field_names = fields.map String.join := by
  simp only [File.structure', hg] at h
  cases hc : g.matlab_class with
  | error e => simp [hc] at h
  | ok cls =>
    simp only [hc] at h
    by_cases hcls : cls = "struct"
    · simp only [hcls, if_pos rfl, hf] at h
      cases h
      rfl
    · simp [if_neg hcls] at h

/-- A string whose underlying character list is a member of a list joining to
the empty string is itself empty. -/
theorem mem_of_join_eq_empty (v : List String) (cs : String)
    (hcs : cs ∈ v) (hjoin : String.join v = "") : cs = "" := by
  have hdata : (String.join v).data = (v.map String.data).flatten :=
    String.data_join v
  rw [hjoin] at hdata
  have hnil : (v.map String.data).flatten = [] := hdata.symm
  rw [List.flatten_eq_nil_iff] at hnil
  have hcsdata : cs.data = [] := hnil cs.data (List.mem_map_of_mem _ hcs)
  cases cs
  simp_all [String.ext_iff]

/-! ### Claim theorems -/

/-- C1 (counterexample): a group that exists with `MATLAB_class` equal to
`"double"` makes `File::structure` fail with `Error::HDF5` wrapping the
internal message `"Matlab class is not a struct"`, not with the
`Error::Struct` variant the claim names. -/
theorem structure_class_guard_counterexample :
    exFileDouble.structure' "s" =
      .error (.HDF5 (HdfError.fromStr "Matlab class is not a struct")) ∧
    exFileDouble.structure' "s" ≠ .error Error.Struct :=
  ⟨rfl, by decide⟩

/-- C1 (amended): for a located group, a `MATLAB_class` value other than
`"struct"` makes `File::structure` fail with `Error::HDF5` wrapping an internal
store error whose message is `"Matlab class is not a struct"` (the
`Error::Struct` variant is never produced), regardless of the group's
`MATLAB_fields` content; an absent or unreadable `MATLAB_class` attribute
instead propagates the underlying attribute error as `Error::HDF5`. -/
theorem structure_class_guard (f : File T) (name : String) (g : H5Group)
    (hg : f.h5.group name = .ok g) :
    (∀ s, g.matlab_class = .ok s → s ≠ "struct" →
      f.structure' name =
        .error (.HDF5 (HdfError.fromStr "Matlab class is not a struct"))) ∧
    (∀ e, g.matlab_class = .error e →
      f.structure' name = .error (.HDF5 e)) := by
  constructor
  · intro s hs hne
    simp [File.structure', hg, hs, hne]
  · intro e he
    simp [File.structure', hg, he]

/-- C1 (witness): the amended theorem applied to the `"double"`-class store. -/
theorem structure_class_guard_witness :
    exFileDouble.structure' "s" =
      .error (.HDF5 (HdfError.fromStr "Matlab class is not a struct")) :=
  (structure_class_guard exFileDouble "s" exGroupDouble rfl).1 "double" rfl
    (by decide)

/-- C2: when both lookups fail, `File::array` returns `Error::Dataset` and
`File::structure` returns `Error::Group`, each carrying exactly the requested
name; the underlying lookup errors are discarded, never surfaced as the
`Error::HDF5` chained variant. -/
theorem missing_name_classification (f : File T) (name : String)
    (e1 e2 : HdfError)
    (h1 : f.h5.dataset name = .error e1) (h2 : f.h5.group name = .error e2) :
    f.array name = .error (.Dataset name) ∧
    f.structure' name = .error (.Group name) := by
  constructor
  · simp [File.array, h1]
  · simp [File.structure', h2]

/-- C2 (witness): the classification on a store in which every lookup fails. -/
theorem missing_name_classification_witness :
    exFileEmpty.array "q" = .error (.Dataset "q") ∧
    exFileEmpty.structure' "q" = .error (.Group "q") :=
  missing_name_classification exFileEmpty "q" absentErr absentErr rfl rfl

/-- C3: converting a `MatVar` of 2-D stored shape `[c, r]` (with the data
invariant) into a dense matrix yields `r` rows, `c` columns and column-major
storage equal to the flat buffer, so the element at row `i`, column `j` is
`data[j * r + i]`, and that element exists for every in-range `i`, `j`. -/
theorem column_major_reshape (var : MatVar T) (c r i j : Nat)
    (hshape : var.shape = [c, r]) (hlen : var.data.length = c * r)
    (hi : i < r) (hj : j < c) :
    matVarToMatrix var = some ⟨r, c, var.data⟩ ∧
    (DMatrix.mk r c var.data).get i j = var.data.get? (j * r + i) ∧
    ((DMatrix.mk r c var.data).get i j).isSome = true := by
  refine ⟨?_, rfl, ?_⟩
  · simp [matVarToMatrix, hshape, fromColumnSlice, MatVar.raw, hlen,
      Nat.mul_comm c r]
  · have h2 : (j + 1) * r ≤ c * r := Nat.mul_le_mul_right r hj
    have h3 : j * r + i < j * r + r := Nat.add_lt_add_left hi (j * r)
    have h4 : j * r + r = (j + 1) * r := (Nat.succ_mul j r).symm
    have hidx : j * r + i < var.data.length := by
      rw [hlen]
      exact lt_of_lt_of_le (h4 ▸ h3) h2
    simp only [DMatrix.get]
    rw [List.get?_eq_get hidx]
    rfl

/-- C3 (witness): the reshape law on the fixture variable `w` of shape
`[2, 3]` at row 1, column 1. -/
theorem column_major_reshape_witness :
    matVarToMatrix wVar = some ⟨3, 2, wVar.data⟩ ∧
    (DMatrix.mk 3 2 wVar.data).get 1 1 = wVar.data.get? (1 * 3 + 1) ∧
    ((DMatrix.mk 3 2 wVar.data).get 1 1).isSome = true :=
  column_major_reshape wVar 2 3 1 1 rfl rfl (by decide) (by decide)

/-- C4 (counterexample): the 1-D fixture variable `q` has a shape of length
`1 ≤ 2`, yet its conversion to a dense matrix panics (indexing `shape[1]` is
out of bounds), refuting the claim that every shape of length at most 2 is in
the conversion's domain. -/
theorem matrix_conversion_counterexample :
    qVar.shape.length ≤ 2 ∧ matVarToMatrix qVar = none :=
  ⟨by decide, rfl⟩

/-- C4 (amended): the conversion into a dense matrix is defined exactly on
shapes of length 2 (given the data-length invariant): a two-entry shape
converts without panic, while every shape of length other than 2 panics —
via `unimplemented!` above two dimensions, and via an out-of-bounds
`shape[1]` index below two. -/
theorem matrix_conversion_domain (var : MatVar T) :
    (∀ c r, var.shape = [c, r] → var.data.length = c * r →
      (matVarToMatrix var).isSome = true) ∧
    (var.shape.length ≠ 2 → matVarToMatrix var = none) := by
  constructor
  · intro c r hshape hlen
    simp [matVarToMatrix, hshape, fromColumnSlice, MatVar.raw, hlen,
      Nat.mul_comm c r]
  · intro hne
    rcases hsh : var.shape with _ | ⟨a, _ | ⟨b, t⟩⟩
    · simp [matVarToMatrix, hsh]
    · simp [matVarToMatrix, hsh]
    · rcases t with _ | ⟨x, t2⟩
      · exact absurd (by simp [hsh]) hne
      · unfold matVarToMatrix
        rw [hsh]
        rw [if_pos (by simp only [List.length_cons]; omega)]

/-- C4 (witness): the amended domain law at the 2-D fixture `w` and at a
three-dimensional variable. -/
theorem matrix_conversion_domain_witness :
    (matVarToMatrix wVar).isSome = true ∧
    matVarToMatrix (⟨"v", [2, 3, 4], []⟩ : MatVar Int) = none :=
  ⟨(matrix_conversion_domain wVar).1 2 3 rfl rfl,
   (matrix_conversion_domain ⟨"v", [2, 3, 4], []⟩).2 (by decide)⟩

/-- C5: under the caller-satisfied precondition that the shape has at least
two entries, `n_row` returns `shape[1]`, `n_column` returns `shape[0]`, and
neither index operation fails. -/
theorem n_row_n_column_spec (var : MatVar T) (h : 2 ≤ var.shape.length) :
    var.n_row = some (var.shape.get ⟨1, by omega⟩) ∧
    var.n_column = some (var.shape.get ⟨0, by omega⟩) :=
  ⟨List.get?_eq_get (by omega), List.get?_eq_get (by omega)⟩

/-- C5 (witness): the accessors on the fixture variable `w` of shape
`[2, 3]`. -/
theorem n_row_n_column_spec_witness :
    wVar.n_row = some 3 ∧ wVar.n_column = some 2 :=
  n_row_n_column_spec wVar (by decide)

/-- C6: once the group is located, a failure reading `MATLAB_class` — or,
for a struct-classified group, a failure reading `MATLAB_fields` — is
propagated unchanged as the chained `Error::HDF5` wrapping variant, not
reclassified into a name-carrying error. -/
theorem attr_failure_propagation (f : File T) (name : String) (g : H5Group)
    (hg : f.h5.group name = .ok g) :
    (∀ e, g.matlab_class = .error e →
      f.structure' name = .error (.HDF5 e)) ∧
    (∀ e, g.matlab_class = .ok "struct" → g.matlab_fields = .error e →
      f.structure' name = .error (.HDF5 e)) := by
  constructor
  · intro e he
    simp [File.structure', hg, he]
  · intro e hc hf
    simp [File.structure', hg, hc, hf]

/-- C6 (witness): the propagation on the two attribute-failure groups. -/
theorem attr_failure_propagation_witness :
    exFileAttrErr.structure' "a" = .error (.HDF5 ⟨"attr missing", none⟩) ∧
    exFileAttrErr.structure' "b" =
      .error (.HDF5 ⟨"fields unreadable", some "detail"⟩) :=
  ⟨(attr_failure_propagation exFileAttrErr "a" exGroupClassErr rfl).1 _ rfl,
   (attr_failure_propagation exFileAttrErr "b" exGroupFieldsErr rfl).2 _ rfl
     rfl⟩

/-- C7: a successful `File::structure` returns exactly one field name per
`MATLAB_fields` element, each the concatenation of that element's
single-character items, in the exact attribute order — no reordering,
deduplication or case normalization. -/
theorem field_order_preservation (f : File T) (name : String) (g : H5Group)
    (fields : List (List String)) (s : MatStruct)
    (hg : f.h5.group name = .ok g) (hf : g.matlab_fields = .ok fields)
    (h : f.structure' name = .ok s) :
    s.field_names = fields.map String.join :=
  structure_ok_fields f name g fields s hg hf h

/-- C7 (witness): the field names of the well-formed struct store, decoding
`[["a"], ["b", "c"]]` into `["a", "bc"]`. -/
theorem field_order_preservation_witness :
    (MatStruct.mk ["a", "bc"]).field_names =
      [["a"], ["b", "c"]].map String.join :=
  field_order_preservation exFileStruct "s" exGroupStruct [["a"], ["b", "c"]]
    ⟨["a", "bc"]⟩ rfl rfl rfl

/-- C8 (counterexample): a struct group whose `MATLAB_fields` holds one
element with no character items decodes successfully into a `MatStruct` whose
only field name is the empty string, refuting the claimed non-emptiness
invariant. -/
theorem nonempty_field_names_counterexample :
    exFileEmptyField.structure' "s" = .ok ⟨[""]⟩ ∧ ("" : String).length = 0 :=
  ⟨rfl, rfl⟩

/-- C8 (amended): the decoder performs no emptiness check; every returned
field name is non-empty exactly when the store supplies it at least one
non-empty character item — under that hypothesis on `MATLAB_fields`, every
element of a successfully returned `field_names` is non-empty. -/
theorem nonempty_field_names (f : File T) (name : String) (g : H5Group)
    (fields : List (List String)) (s : MatStruct)
    (hg : f.h5.group name = .ok g) (hf : g.matlab_fields = .ok fields)
    (hne : ∀ v ∈ fields, ∃ cs ∈ v, cs ≠ "")
    (h : f.structure' name = .ok s) :
    ∀ x ∈ s.field_names, x ≠ "" := by
  rw [structure_ok_fields f name g fields s hg hf h]
  intro x hx
  rw [List.mem_map] at hx
  obtain ⟨v, hv, hxv⟩ := hx
  obtain ⟨cs, hcs, hcne⟩ := hne v hv
  subst hxv
  intro hjoin
  exact hcne (mem_of_join_eq_empty v cs hcs hjoin)

/-- C8 (witness): the amended invariant at the well-formed struct store,
specialised to its first decoded field name. -/
theorem nonempty_field_names_witness : ("a" : String) ≠ "" :=
  nonempty_field_names exFileStruct "s" exGroupStruct [["a"], ["b", "c"]]
    ⟨["a", "bc"]⟩ rfl rfl
    (by
      intro v hv
      simp only [List.mem_cons, List.not_mem_nil, or_false] at hv
      rcases hv with h | h
      · exact ⟨"a", by simp [h], by decide⟩
      · exact ⟨"b", by simp [h], by decide⟩)
    rfl "a" (by simp)

/-- C9: a successful `File::array` copies the dataset's canonical name and
declared shape verbatim, and — under the store's read contract — its data
length equals the product of the shape entries. -/
theorem array_result_invariants (f : File T) (name : String)
    (d : H5Dataset T) (v : MatVar T)
    (hd : f.h5.dataset name = .ok d) (hc : d.readContract)
    (h : f.array name = .ok v) :
    v.name = d.name ∧ v.shape = d.shape ∧ v.data.length = v.shape.prod := by
  simp only [File.array, hd] at h
  cases hr : d.read_raw with
  | error e => simp [hr] at h
  | ok data =>
    simp only [hr] at h
    cases h
    exact ⟨rfl, rfl, hc data hr⟩

/-- C9 (witness): the invariants on the fixture store: lookup name `"q"`,
canonical name `"/q"`, shape `[6]`, six elements. -/
theorem array_result_invariants_witness :
    (MatVar.mk "/q" [6] [1, 4, 2, 5, 3, 6] : MatVar Nat).name = "/q" ∧
    (MatVar.mk "/q" [6] [1, 4, 2, 5, 3, 6] : MatVar Nat).shape = [6] ∧
    (MatVar.mk "/q" [6] [1, 4, 2, 5, 3, 6] : MatVar Nat).data.length =
      (MatVar.mk "/q" [6] [1, 4, 2, 5, 3, 6] : MatVar Nat).shape.prod :=
  array_result_invariants exFileQ "q" exDatasetQ _ rfl
    (by
      intro data hdata
      cases hdata
      decide)
    rfl

/-- C10: at the failing input — an `Error::HDF5` wrapping a store error with
no source cause, such as the internal error the decoder itself creates — the
`Display` rendering panics (`source(self).unwrap()` on `None`), modelled as
`none`; the name-carrying variants render their classified kind as claimed. -/
theorem display_panics_without_source :
    (Error.HDF5 (HdfError.fromStr "boom")).display = none ∧
    (Error.Dataset "q").display = some "Loading q dataset failed" ∧
    (Error.Group "g").display = some "Loading g group failed" ∧
    Error.Struct.display = some "Matlab class is not a struct" ∧
    (Error.HDF5 ⟨"stack", some "cause"⟩).display =
      some "Importing Matlab variables failed (stack), caused by cause" :=
  ⟨rfl, rfl, rfl, rfl, rfl⟩

end Mat73
